import Mathlib

/-!
Shallow embedding of the backlink-outreach backend (app.py and
web_scraper.py).

Pure string processing (the field extractors, URL parsing, validation) is
translated directly from the Python source; the regular expressions are
compiled by hand into a small backtracking matcher with Python semantics
(left-preferring alternation, greedy repetition, leftmost non-overlapping
findall).  Network and generative-API nondeterminism is passed in as explicit
oracle values (FetchOutcome, DraftEnv), and the concurrent batch endpoint is
modelled by an explicit completion order together with a flag saying whether
every task finished before the overall as_completed deadline.

Library functions the source calls (urllib.parse, validators, str methods)
are modelled on the character-list level so that everything reduces inside
the kernel; each such model carries a comment naming the library function and
the subset of its behaviour that is relevant here.
-/

set_option maxRecDepth 8192

/-! ## Python string primitives, modelled on character lists -/

/-- Remove the longest suffix of characters satisfying `p`. -/
def dropTrailing (p : Char → Bool) (cs : List Char) : List Char :=
  (cs.reverse.dropWhile p).reverse

/-- Python str.strip(): remove leading and trailing whitespace (the inputs
considered are ASCII, where Char.isWhitespace agrees with Python). -/
def trimL (s : String) : String :=
  String.mk (dropTrailing Char.isWhitespace (s.data.dropWhile Char.isWhitespace))

/-- `pre` is a prefix of `s` (Python str.startswith). -/
def startsWithL (pre s : String) : Bool :=
  pre.data.isPrefixOf s.data

/-- Drop the first `n` characters. -/
def dropL (n : Nat) (s : String) : String := String.mk (s.data.drop n)

/-- Python str.replace: replace every non-overlapping occurrence of `pat`,
scanning left to right.  The fuel equals the input length, which suffices
because each step consumes at least one character. -/
def pyReplaceAux (pat rep : List Char) : Nat → List Char → List Char
  | 0, cs => cs
  | _ + 1, [] => []
  | fuel + 1, c :: cs =>
      if pat ≠ [] && pat.isPrefixOf (c :: cs) then
        rep ++ pyReplaceAux pat rep fuel ((c :: cs).drop pat.length)
      else c :: pyReplaceAux pat rep fuel cs

def pyReplace (s pat rep : String) : String :=
  String.mk (pyReplaceAux pat.data rep.data (s.data.length + 1) s.data)

/-- Python str.split(sep) for a one-character separator: "" splits to [""]. -/
def splitOnCharL (sep : Char) : List Char → List (List Char)
  | [] => [[]]
  | c :: cs =>
      if c = sep then [] :: splitOnCharL sep cs
      else
        match splitOnCharL sep cs with
        | [] => [[c]]
        | g :: gs => (c :: g) :: gs

def splitOnC (sep : Char) (s : String) : List String :=
  (splitOnCharL sep s.data).map String.mk

/-- Python str.title(): a letter is uppercased when the previous character is
not a letter, lowercased otherwise; other characters are kept. -/
def pyTitleAux : List Char → Bool → List Char
  | [], _ => []
  | c :: cs, prevAlpha =>
      if c.isAlpha then (if prevAlpha then c.toLower else c.toUpper) :: pyTitleAux cs true
      else c :: pyTitleAux cs false

def pyTitle (s : String) : String := String.mk (pyTitleAux s.data false)

/-- Case-insensitive substring test (re.search of a literal with re.I). -/
def isSubstrList (needle : List Char) : List Char → Bool
  | [] => needle.isEmpty
  | c :: rest => needle.isPrefixOf (c :: rest) || isSubstrList needle rest

def containsCI (needle hay : String) : Bool :=
  isSubstrList (needle.data.map Char.toLower) (hay.data.map Char.toLower)

/-! ## A small regex engine with Python (backtracking) semantics -/

/-- Regular-expression syntax covering the patterns used by web_scraper.py:
character classes, concatenation, alternation and greedy bounded or
unbounded repetition. -/
inductive RE where
  | cls (p : Char → Bool)
  | seq (a b : RE)
  | alt (a b : RE)
  | rep (r : RE) (lo : Nat) (hi : Option Nat)

/-- Backtracking matcher: alternation prefers the left branch, repetition is
greedy, exactly as in Python's re.  `k` receives the unconsumed input.  The
fuel bounds the call depth; every nested call has strictly smaller fuel, and
the fuel passed by `reMatchHere` dominates the depth for every pattern in
this file (small fixed patterns, one stack level per consumed character). -/
def reMatch : Nat → RE → List Char → (List Char → Option (List Char)) → Option (List Char)
  | 0, _, _, _ => none
  | _ + 1, RE.cls p, cs, k =>
      match cs with
      | [] => none
      | c :: rest => if p c then k rest else none
  | fuel + 1, RE.seq a b, cs, k =>
      reMatch fuel a cs (fun rest => reMatch fuel b rest k)
  | fuel + 1, RE.alt a b, cs, k =>
      (reMatch fuel a cs k).orElse (fun _ => reMatch fuel b cs k)
  | fuel + 1, RE.rep r lo hi, cs, k =>
      let more :=
        if hi = some 0 then none
        else reMatch fuel r cs
          (fun rest => reMatch fuel (RE.rep r (lo - 1) (hi.map (· - 1))) rest k)
      if lo = 0 then more.orElse (fun _ => k cs) else more

/-- Try a match anchored at the head of `cs`; returns (consumed, remaining). -/
def reMatchHere (r : RE) (cs : List Char) : Option (List Char × List Char) :=
  match reMatch ((cs.length + 2) * 100) r cs some with
  | some rest => some (cs.take (cs.length - rest.length), rest)
  | none => none

/-- re.findall for a pattern without capture groups: scan left to right,
collecting leftmost non-overlapping matches. -/
def reFindallAux (r : RE) : Nat → List Char → List String
  | 0, _ => []
  | fuel + 1, cs =>
      match reMatchHere r cs with
      | some (m, rest) =>
          if m.isEmpty then
            match cs with
            | [] => []
            | _ :: tail => reFindallAux r fuel tail
          else String.mk m :: reFindallAux r fuel rest
      | none =>
          match cs with
          | [] => []
          | _ :: tail => reFindallAux r fuel tail

def reFindall (r : RE) (s : String) : List String :=
  reFindallAux r (s.data.length + 1) s.data

/-! ## URL parsing (urllib.parse) and the validators library -/

def schemeChar (c : Char) : Bool := c.isAlphanum || c = '+' || c = '-' || c = '.'

/-- Split off the URL scheme as urllib.parse does: a leading alphabetic
character followed by scheme characters and a colon; otherwise the scheme is
empty and the input is untouched. -/
def schemeSplit (url : String) : String × String :=
  match url.data.findIdx? (· = ':') with
  | none => ("", url)
  | some i =>
      let pre := url.data.take i
      match pre with
      | [] => ("", url)
      | c :: _ =>
          if c.isAlpha && pre.all schemeChar then
            (String.mk (pre.map Char.toLower), String.mk (url.data.drop (i + 1)))
          else ("", url)

def netlocEnd (c : Char) : Bool := c = '/' || c = '?' || c = '#'

/-- urllib.parse.urlparse(url).netloc: present only after a "//" following
the scheme, up to the first '/', '?' or '#'. -/
def netloc (url : String) : String :=
  let rest := (schemeSplit url).2
  if startsWithL "//" rest then
    String.mk ((rest.data.drop 2).takeWhile (fun c => !netlocEnd c))
  else ""

/-- The part (path, query, fragment) following the authority component. -/
def urlPath (url : String) : String :=
  let rest := (schemeSplit url).2
  if startsWithL "//" rest then
    String.mk ((rest.data.drop 2).dropWhile (fun c => !netlocEnd c))
  else rest

/-- Model of urllib.parse.urljoin for the href shapes arising here: an
absolute http(s) base, and an href that is empty, absolute, scheme-relative,
root-relative or document-relative. -/
def urljoin (base href : String) : String :=
  if href = "" then base
  else if (schemeSplit href).1 ≠ "" then href
  else if startsWithL "//" href then (schemeSplit base).1 ++ ":" ++ href
  else if startsWithL "/" href then
    (schemeSplit base).1 ++ "://" ++ netloc base ++ href
  else
    let dir := dropTrailing (fun c => c ≠ '/') (urlPath base).data
    let dir := if dir = [] then ['/'] else dir
    (schemeSplit base).1 ++ "://" ++ netloc base ++ String.mk dir ++ href

/-- Model of the validators.url library predicate for the URLs the claims
exercise: an http(s) scheme, a dotted host of nonempty alphanumeric-or-hyphen
labels, and no whitespace after the host.  IP literals, ports, userinfo and
query grammars, which no claim uses, are omitted. -/
def validators_url (u : String) : Bool :=
  let scheme := (schemeSplit u).1
  let host := netloc u
  (scheme = "http" || scheme = "https") &&
  startsWithL "//" (schemeSplit u).2 &&
  host ≠ "" &&
  decide (2 ≤ (splitOnC '.' host).length) &&
  (splitOnC '.' host).all (fun l => l ≠ "" && l.data.all (fun c => c.isAlphanum || c = '-')) &&
  (urlPath u).data.all (fun c => !c.isWhitespace)

/-- Characters of the user-part atoms of the validators.email regex
(case-insensitive); characters that the extraction pattern can never produce
(quotes, backslash, braces) are omitted. -/
def emailAtomChar (c : Char) : Bool :=
  c.isAlphanum ||
    (c = '-' || c = '!' || c = '#' || c = '$' || c = '%' || c = '&' || c = '*' ||
     c = '+' || c = '/' || c = '=' || c = '?' || c = '^' || c = '_' || c = '|' || c = '~')

/-- Model of the validators.email library predicate: the dot-atom user part
(nonempty atoms separated by dots, so no leading, trailing or doubled dot)
and the hostname-shaped domain part (dotted labels, alphabetic final label of
length 2 to 63).  Quoted-string locals and IP-literal domains are omitted. -/
def validators_email (s : String) : Bool :=
  match splitOnC '@' s with
  | [user, dom] =>
      let atoms := splitOnC '.' user
      let userOk := user ≠ "" && atoms.all (fun a => a ≠ "" && a.data.all emailAtomChar)
      let labels := splitOnC '.' dom
      let finalOk :=
        match labels.getLast? with
        | some l => decide (2 ≤ l.length) && decide (l.length ≤ 63) && l.data.all Char.isAlpha
        | none => false
      let mids := labels.dropLast
      let midOk := mids ≠ [] && mids.all (fun l =>
        l ≠ "" && decide (l.length ≤ 63) &&
        l.data.all (fun c => c.isAlphanum || c = '-') &&
        (match l.data with | [] => false | c :: _ => c.isAlphanum) &&
        (match l.data.getLast? with | some c => c.isAlphanum | none => false))
      userOk && finalOk && midOk
  | _ => false

/-! ## Field extractors (web_scraper.py) -/

def emailLocalChar (c : Char) : Bool :=
  c.isAlphanum || c = '.' || c = '_' || c = '%' || c = '+' || c = '-'

def emailDomainChar (c : Char) : Bool := c.isAlphanum || c = '.' || c = '-'

/-- The email pattern of extract_emails, hand-compiled into the engine. -/
def email_pattern : RE :=
  RE.seq (RE.rep (RE.cls emailLocalChar) 1 none)
    (RE.seq (RE.cls (· = '@'))
      (RE.seq (RE.rep (RE.cls emailDomainChar) 1 none)
        (RE.seq (RE.cls (· = '.')) (RE.rep (RE.cls Char.isAlpha) 2 none))))

/-- Python str.strip(".,"): remove leading and trailing '.' and ','. -/
def pyStripDots (s : String) : String :=
  String.mk (dropTrailing (fun c => c = '.' || c = ',')
    (s.data.dropWhile (fun c => c = '.' || c = ',')))

/-- WebScraper.extract_emails.  list(set(...)) iterates in an unspecified
order and is modelled by List.dedup. -/
def extract_emails (text : String) : List String :=
  let text := pyReplace (pyReplace text " [at] " "@") " [dot] " "."
  let emails := reFindall email_pattern text
  let valid_emails := (emails.map pyStripDots).filter validators_email
  valid_emails.dedup

/-- Email extraction as the specification words it, for the refinement
comparison: identical to extract_emails except that only TRAILING '.' and ','
characters are stripped from each raw match. -/
def extract_emails_spec (text : String) : List String :=
  let text := pyReplace (pyReplace text " [at] " "@") " [dot] " "."
  let emails := reFindall email_pattern text
  let valid_emails :=
    (emails.map (fun e => String.mk (dropTrailing (fun c => c = '.' || c = ',') e.data))).filter
      validators_email
  valid_emails.dedup

def phoneSepChar (c : Char) : Bool := c = '-' || c = '.' || c.isWhitespace

def digitC : RE := RE.cls Char.isDigit

/-- The four phone patterns of extract_phones, in source order. -/
def phone_patterns : List RE :=
  [ RE.seq (RE.cls (· = '+'))
      (RE.seq (RE.rep digitC 1 (some 3))
        (RE.seq (RE.rep (RE.cls phoneSepChar) 0 (some 1))
          (RE.seq (RE.rep digitC 3 (some 3))
            (RE.seq (RE.rep (RE.cls phoneSepChar) 0 (some 1))
              (RE.seq (RE.rep digitC 3 (some 3))
                (RE.seq (RE.rep (RE.cls phoneSepChar) 0 (some 1))
                  (RE.rep digitC 4 (some 4)))))))),
    RE.seq (RE.cls (· = '('))
      (RE.seq (RE.rep digitC 3 (some 3))
        (RE.seq (RE.cls (· = ')'))
          (RE.seq (RE.rep (RE.cls Char.isWhitespace) 0 none)
            (RE.seq (RE.rep digitC 3 (some 3))
              (RE.seq (RE.rep (RE.cls phoneSepChar) 0 (some 1))
                (RE.rep digitC 4 (some 4))))))),
    RE.seq (RE.rep digitC 3 (some 3))
      (RE.seq (RE.rep (RE.cls phoneSepChar) 0 (some 1))
        (RE.seq (RE.rep digitC 3 (some 3))
          (RE.seq (RE.rep (RE.cls phoneSepChar) 0 (some 1))
            (RE.rep digitC 4 (some 4))))),
    RE.seq (RE.rep digitC 5 (some 5))
      (RE.seq (RE.cls Char.isWhitespace) (RE.rep digitC 6 (some 6))) ]

/-- WebScraper.extract_phones: union of the four patterns' matches in
pattern order, then list(set(...)), modelled by List.dedup. -/
def extract_phones (text : String) : List String :=
  (phone_patterns.foldl (fun acc pat => acc ++ reFindall pat text) []).dedup

/-- A parsed HTML tag as the name extractor consumes it: its content
attribute and its string child (BeautifulSoup .string). -/
structure HtmlTag where
  content : Option String
  str : Option String
deriving DecidableEq, Repr

/-- The parsed page as the extractors consume it: the three name-candidate
tags, the href attributes of those anchor elements that carry one (anchors
without an href are never selected by find_all('a', href=...)), and the page
text soup.get_text(). -/
structure Page where
  og_site_name : Option HtmlTag
  og_title : Option HtmlTag
  title : Option HtmlTag
  anchors : List String
  text : String
deriving DecidableEq, Repr

/-- name = location.get('content', '') or location.string, kept only when
truthy — the body of the candidate loop in extract_business_name.  An empty
content attribute falls through to .string (Python or), and a falsy name
moves the loop to the next location. -/
def tagName (t : Option HtmlTag) : Option String :=
  match t with
  | none => none
  | some tag =>
      if tag.content.getD "" ≠ "" then some (tag.content.getD "")
      else
        match tag.str with
        | some s => if s ≠ "" then some s else none
        | none => none

def nameSep (c : Char) : Bool := c = '|' || c = '-'

/-- re.sub(r"\s*[|-]\s*.+$", "", name): the leftmost match starts at the
whitespace run preceding the first '|' or '-' that has at least one
character after it, and reaches the end of the string; deleting it keeps the
prefix before that separator, with its trailing whitespace removed.  The
names here contain no newline, so '.' and '$' need no special handling. -/
def cleanName (s : String) : String :=
  match s.data.findIdx? nameSep with
  | some j =>
      if j + 1 < s.data.length then
        String.mk (dropTrailing Char.isWhitespace (s.data.take j))
      else s
  | none => s

/-- Does cleanName actually cut something from `s`? -/
def hasCut (s : String) : Bool :=
  match s.data.findIdx? nameSep with
  | some j => decide (j + 1 < s.data.length)
  | none => false

/-- The name-suffix rule as the specification words it, for the refinement
comparison: remove a trailing " | ..." or " - ..." part, i.e. cut at the
first space-padded '|' or '-'; a name without such a separator is returned
unchanged. -/
def specCut : List Char → List Char
  | ' ' :: '|' :: ' ' :: _ => []
  | ' ' :: '-' :: ' ' :: _ => []
  | c :: cs => c :: specCut cs
  | [] => []

def strip_suffix_spec (s : String) : String := String.mk (specCut s.data)

/-- The domain fallback of extract_business_name: netloc, a leading "www."
stripped (re.sub anchored at the start), first dot label, hyphens to spaces,
str.title(). -/
def domainName (url : String) : String :=
  let domain := netloc url
  let domain := if startsWithL "www." domain then dropL 4 domain else domain
  pyTitle (pyReplace ((splitOnC '.' domain).headD "") "-" " ")

/-- WebScraper.extract_business_name. -/
def extract_business_name (page : Page) (url : String) : String :=
  match tagName page.og_site_name with
  | some name => cleanName (trimL name)
  | none =>
    match tagName page.og_title with
    | some name => cleanName (trimL name)
    | none =>
      match tagName page.title with
      | some name => cleanName (trimL name)
      | none => domainName url

/-- The first truthy name candidate, in source order. -/
def firstNameCandidate (page : Page) : Option String :=
  match tagName page.og_site_name with
  | some n => some n
  | none =>
    match tagName page.og_title with
    | some n => some n
    | none => tagName page.title

/-- re.search of the platform's pattern against an href, case-insensitively
(facebook\.com, twitter\.com|x\.com, linkedin\.com, instagram\.com). -/
def hrefMatches (plat href : String) : Bool :=
  match plat with
  | "facebook" => containsCI "facebook.com" href
  | "twitter" => containsCI "twitter.com" href || containsCI "x.com" href
  | "linkedin" => containsCI "linkedin.com" href
  | "instagram" => containsCI "instagram.com" href
  | _ => false

def socialPlatforms : List String := ["facebook", "twitter", "linkedin", "instagram"]

/-- WebScraper.extract_social_links: for each platform in dict order, the
first anchor whose href matches the platform pattern, resolved with urljoin
against the base URL; platforms without a match get no entry. -/
def extract_social_links (page : Page) (base_url : String) : List (String × String) :=
  socialPlatforms.foldl (fun acc plat =>
    match page.anchors.find? (hrefMatches plat) with
    | some href => acc ++ [(plat, urljoin base_url href)]
    | none => acc) []

/-- Association-list lookup with decidable string equality (dict access). -/
def lookupKey (k : String) : List (String × String) → Option String
  | [] => none
  | (a, b) :: rest => if a = k then some b else lookupKey k rest

/-! ## The per-URL pipeline (scrape_url, generate_outreach_email) -/

/-- One per-URL result dict; Option fields model the presence of the
optional keys. -/
structure UrlRecord where
  url : String
  business_name : String
  error : Option String := none
  emails : Option (List String) := none
  phones : Option (List String) := none
  social_links : Option (List (String × String)) := none
  outreach_email : Option String := none
deriving DecidableEq, Repr

/-- Outcome of the requests.get call in scrape_url, as an oracle for the
network nondeterminism: on success the final (post-redirect) URL and the
parsed page; requests.Timeout; or any other exception with its message
(requests.RequestException from the inner handler is re-raised unchanged,
so it lands in the generic handler with str(e)). -/
inductive FetchOutcome where
  | success (finalUrl : String) (page : Page)
  | timeout
  | failure (msg : String)
deriving DecidableEq, Repr

/-- The error dict built by scrape_url's except branches:
{'url', 'error', 'business_name': urlparse(url).netloc.replace('www.','')}
(str.replace removes every occurrence, not only a leading one). -/
def errorRecord (url msg : String) : UrlRecord :=
  { url := url, error := some msg,
    business_name := pyReplace (netloc url) "www." "" }

/-- WebScraper.scrape_url: an invalid URL raises ValueError(f"Invalid URL:
{url}") which the generic handler stringifies; a timeout yields the fixed
message; any other failure carries its own message; a successful fetch runs
the extractors over the page text and resolves social links against the
final URL.  time.sleep and logging have no observable effect. -/
def scrape_url (fetch : FetchOutcome) (url : String) : UrlRecord :=
  if validators_url url then
    match fetch with
    | FetchOutcome.success finalUrl page =>
        { url := url,
          business_name := extract_business_name page url,
          emails := some (extract_emails page.text),
          phones := some (extract_phones page.text),
          social_links := some (extract_social_links page finalUrl) }
    | FetchOutcome.timeout => errorRecord url "Request timed out"
    | FetchOutcome.failure msg => errorRecord url msg
  else errorRecord url ("Invalid URL: " ++ url)

/-- Outcome of the openai.Completion.create call: the returned text (empty
standing for falsy response.choices[0].text), or a raised exception with its
runtime type name and message. -/
inductive DraftOutcome where
  | success (text : String)
  | failure (excType msg : String)
deriving DecidableEq, Repr

/-- Oracle for generate_outreach_email: whether openai.api_key was set, and
the API call's outcome. -/
structure DraftEnv where
  apiKeySet : Bool
  outcome : DraftOutcome
deriving DecidableEq, Repr

/-- The success path of generate_outreach_email: a falsy response text
raises ValueError("No response from OpenAI API") which the except-block
stringifies; otherwise the text is returned stripped. -/
def draftSuccessText (t : String) : String :=
  if t = "" then "Error: No response from OpenAI API" else trimL t

/-- The except-block of generate_outreach_email: classify the raised
exception by its runtime type name into the fixed error strings. -/
def classifyDraftError (excType msg : String) : String :=
  if excType = "AuthenticationError" then "Error: OpenAI API key is invalid"
  else if excType = "APIError" then "Error: OpenAI API is currently unavailable"
  else if excType = "RateLimitError" then "Error: OpenAI API rate limit exceeded"
  else if excType = "ValueError" then "Error: " ++ msg
  else "Error: An unexpected error occurred while generating the email"

/-- WebScraper.generate_outreach_email: the ValueErrors raised inside the try
are caught by the function's own except-block and classified by type name,
so each collapses directly to the string that block returns. -/
def generate_outreach_email (env : DraftEnv) (business_name company_name backlink_url : String) :
    String :=
  if business_name = "" ∨ company_name = "" ∨ backlink_url = "" then
    "Error: Missing required parameters for email generation"
  else if !env.apiKeySet then
    "Error: OpenAI API key is not initialized"
  else
    match env.outcome with
    | DraftOutcome.success t => draftSuccessText t
    | DraftOutcome.failure excType msg => classifyDraftError excType msg

/-- Per-task oracle: the fetch outcome and the drafting oracle. -/
structure TaskEnv where
  fetch : FetchOutcome
  draft : DraftEnv
deriving DecidableEq, Repr

/-- app.scrape_single_url: scrape_url always returns a non-empty dict and
never raises, so the falsy-result branch and the except branch are
unreachable; when the result has no 'error' key the drafted (or error)
string is attached as outreach_email. -/
def scrape_single_url (env : TaskEnv) (url company_name backlink_url : String) : UrlRecord :=
  let result := scrape_url env.fetch url
  if result.error = none then
    { result with outreach_email := (some
        (generate_outreach_email env.draft result.business_name company_name backlink_url)) }
  else result

/-! ## The batch endpoint (app.scrape) -/

/-- The request body's urls field: absent (data.get defaults to []), present
but not a list, or a list of strings. -/
inductive UrlsField where
  | absent
  | wrongType
  | list (urls : List String)
deriving DecidableEq, Repr

structure RequestData where
  urls : UrlsField
  companyName : Option String
  backlinkUrl : Option String
deriving DecidableEq, Repr

inductive ScrapeResponse where
  | clientError (msg : String)
  | ok (results : List UrlRecord)
  | serverError (msg : String)
deriving DecidableEq, Repr

/-- not (not isinstance(urls, list) or not urls). -/
def urls_nonempty_list : UrlsField → Bool
  | UrlsField.list us => !us.isEmpty
  | _ => false

def urlsOf : UrlsField → List String
  | UrlsField.list us => us
  | _ => []

/-- Text of the TimeoutError that as_completed raises when its deadline
elapses (CPython formats the pending/total future counts into it; the counts
are irrelevant to the claims and are not modelled). -/
def timeout_exception_text : String := "futures unfinished"

/-- app.scrape.  Completion order of the futures is the explicit permutation
complOrder over task indices; onTime says whether every task finished before
the 12-second as_completed deadline.  When the deadline elapses, the
TimeoutError is raised by the as_completed iterator at the for-statement —
outside the per-future try/except, whose TimeoutError branch is therefore
unreachable (future.result() without a timeout never raises TimeoutError) —
so the endpoint's outer handler returns the 500 response and the collected
results are discarded.  scrape_single_url never raises and always returns a
truthy dict, so on the no-timeout path every future contributes exactly one
appended result. -/
def scrape (data : RequestData) (env : Nat → TaskEnv) (complOrder : List Nat) (onTime : Bool) :
    ScrapeResponse :=
  let company_name := data.companyName.getD ""
  let backlink_url := data.backlinkUrl.getD ""
  if urls_nonempty_list data.urls then
    if onTime then
      ScrapeResponse.ok (complOrder.map (fun i =>
        scrape_single_url (env i) ((urlsOf data.urls).getD i "") company_name backlink_url))
    else ScrapeResponse.serverError timeout_exception_text
  else ScrapeResponse.clientError "Invalid input: urls must be a non-empty array"

/-! ## Concrete fixtures used by witnesses and counterexamples -/

def pageA : Page :=
  { og_site_name := some { content := some "Acme", str := none },
    og_title := none, title := none, anchors := [], text := "" }

def draftOk : DraftEnv := { apiKeySet := true, outcome := DraftOutcome.success "Hello" }

def envA : TaskEnv := { fetch := FetchOutcome.success "https://a.com/" pageA, draft := draftOk }

def envFail : TaskEnv := { fetch := FetchOutcome.failure "connection refused", draft := draftOk }

def dataTriple : RequestData :=
  { urls := UrlsField.list ["https://a.com", "https://a.com", "https://a.com"],
    companyName := some "Tanglewood", backlinkUrl := some "https://t.example/guide" }

def dataSingle : RequestData :=
  { urls := UrlsField.list ["https://example.com"],
    companyName := some "Acme", backlinkUrl := some "https://acme.example/page" }

def dataNoCompany : RequestData :=
  { urls := UrlsField.list ["https://a.com"], companyName := none, backlinkUrl := none }

def pageEshop : Page :=
  { og_site_name := none, og_title := none,
    title := some { content := none, str := some "E-shop" },
    anchors := [], text := "" }

def pageRelAnchor : Page :=
  { og_site_name := none, og_title := none, title := none,
    anchors := ["/pagename"], text := "" }

/-! ## Helper lemmas -/

theorem map_getD_range {α : Type} (l : List α) (d : α) :
    (List.range l.length).map (fun i => l.getD i d) = l := by
  induction l with
  | nil => simp
  | cons a t ih =>
      rw [List.length_cons, List.range_succ_eq_map, List.map_cons, List.map_map]
      have hf : ((fun i => (a :: t).getD i d) ∘ Nat.succ) = fun i => t.getD i d := by
        funext i
        rfl
      rw [hf, ih]
      rfl

theorem scrape_url_url (f : FetchOutcome) (u : String) : (scrape_url f u).url = u := by
  unfold scrape_url errorRecord
  split
  · cases f <;> rfl
  · rfl

theorem scrape_single_url_url (e : TaskEnv) (u cn bu : String) :
    (scrape_single_url e u cn bu).url = u := by
  have h := scrape_url_url e.fetch u
  simp only [scrape_single_url]
  split <;> simpa using h

/-- Every scrape_url result is either a full success record (error absent,
all three contact fields present, no outreach yet) or an error record
(error present, no contact fields, no outreach). -/
theorem scrape_url_shape (f : FetchOutcome) (u : String) :
    ((scrape_url f u).error = none ∧ (scrape_url f u).emails.isSome = true ∧
      (scrape_url f u).phones.isSome = true ∧ (scrape_url f u).social_links.isSome = true ∧
      (scrape_url f u).outreach_email = none) ∨
    ((scrape_url f u).error.isSome = true ∧ (scrape_url f u).emails = none ∧
      (scrape_url f u).phones = none ∧ (scrape_url f u).social_links = none ∧
      (scrape_url f u).outreach_email = none) := by
  unfold scrape_url errorRecord
  split
  · cases f
    · exact Or.inl ⟨rfl, rfl, rfl, rfl, rfl⟩
    · exact Or.inr ⟨rfl, rfl, rfl, rfl, rfl⟩
    · exact Or.inr ⟨rfl, rfl, rfl, rfl, rfl⟩
  · exact Or.inr ⟨rfl, rfl, rfl, rfl, rfl⟩

theorem scrape_single_url_outreach (e : TaskEnv) (u cn bu : String) :
    ((scrape_single_url e u cn bu).error = none →
      (scrape_single_url e u cn bu).outreach_email.isSome = true) ∧
    ((scrape_single_url e u cn bu).error.isSome = true →
      (scrape_single_url e u cn bu).outreach_email = none) := by
  unfold scrape_single_url
  rcases scrape_url_shape e.fetch u with ⟨h1, _, _, _, _⟩ | ⟨h1, _, _, _, h5⟩
  · rw [if_pos h1]
    refine ⟨fun _ => rfl, fun hcontra => ?_⟩
    simp at hcontra
    rw [h1] at hcontra
    simp at hcontra
  · have hne : ¬ (scrape_url e.fetch u).error = none := by
      intro hno
      rw [hno] at h1
      simp at h1
    rw [if_neg hne]
    exact ⟨fun hno => absurd hno hne, fun _ => h5⟩

theorem extract_business_name_decomp (page : Page) (url : String) :
    extract_business_name page url =
      (match firstNameCandidate page with
       | some c => cleanName (trimL c)
       | none => domainName url) := by
  unfold extract_business_name firstNameCandidate
  cases tagName page.og_site_name <;> cases tagName page.og_title <;>
    cases tagName page.title <;> rfl

theorem cleanName_of_no_cut (s : String) (h : hasCut s = false) : cleanName s = s := by
  unfold cleanName
  unfold hasCut at h
  cases hidx : s.data.findIdx? nameSep with
  | none => rfl
  | some j =>
      rw [hidx] at h
      simp only [decide_eq_false_iff_not] at h
      simp only [if_neg h]

/-! ## Claim C1 -/

/-- C1: for a request carrying a non-empty list of N URLs (duplicates
allowed) all of whose tasks complete before the overall deadline, the batch
response is a 200 list of exactly N records, and the multiset of url fields
of the records is exactly the multiset of input URLs — no input URL is
dropped, whatever the individual task outcomes were. -/
theorem batch_response_complete (data : RequestData) (urls : List String)
    (env : Nat → TaskEnv) (ord : List Nat)
    (hu : data.urls = UrlsField.list urls) (hne : urls ≠ [])
    (hperm : List.Perm ord (List.range urls.length)) :
    ∃ rs, scrape data env ord true = ScrapeResponse.ok rs ∧
      rs.length = urls.length ∧ List.Perm (rs.map (fun r => r.url)) urls := by
  have hok : urls_nonempty_list data.urls = true := by
    rw [hu]
    simp [urls_nonempty_list, List.isEmpty_iff, hne]
  refine ⟨(ord.map (fun i => scrape_single_url (env i) ((urlsOf data.urls).getD i "")
      (data.companyName.getD "") (data.backlinkUrl.getD ""))), ?_, ?_, ?_⟩
  · unfold scrape
    rw [if_pos hok]
    rfl
  · simp [hperm.length_eq]
  · rw [List.map_map]
    have hfun : ((fun r => UrlRecord.url r) ∘ (fun i => scrape_single_url (env i)
        ((urlsOf data.urls).getD i "") (data.companyName.getD "") (data.backlinkUrl.getD "")))
        = fun i => (urlsOf data.urls).getD i "" := by
      funext i
      exact scrape_single_url_url (env i) _ _ _
    rw [hfun, hu]
    have hmap := hperm.map (fun i => (urlsOf (UrlsField.list urls)).getD i "")
    have hrange : (List.range urls.length).map (fun i => (urlsOf (UrlsField.list urls)).getD i "")
        = urls := map_getD_range urls ""
    rw [hrange] at hmap
    exact hmap

/-- Witness for C1: a batch of the same URL three times, completing in the
order third-first-second, yields three records, one per occurrence. -/
theorem batch_response_complete_witness :
    ∃ rs, scrape dataTriple (fun _ => envA) [2, 0, 1] true = ScrapeResponse.ok rs ∧
      rs.length = (["https://a.com", "https://a.com", "https://a.com"] : List String).length ∧
      List.Perm (rs.map (fun r => r.url)) ["https://a.com", "https://a.com", "https://a.com"] :=
  batch_response_complete dataTriple ["https://a.com", "https://a.com", "https://a.com"]
    (fun _ => envA) [2, 0, 1] rfl (by decide) (by decide)

/-! ## Claim C2 -/

/-- C2 (behaviour of the code at the failing input): when the as_completed
deadline elapses with the single task unfinished, the TimeoutError is raised
at the for-statement — outside the per-future try/except whose handler would
have built the "Processing timed out" record — so the endpoint returns the
500 serverError carrying the exception text and no result list at all; the
unfinished task is not converted to an ExtractionError and completed results
are not returned. -/
theorem batch_deadline_returns_server_error :
    scrape dataSingle (fun _ => envA) [0] false =
      ScrapeResponse.serverError timeout_exception_text := rfl

/-! ## Claim C3 -/

/-- C3 counterexample: a request whose companyName and backlinkUrl are both
absent is not rejected with a client error — the endpoint processes the URL
and answers 200 with a result record, so no companyName validation exists. -/
theorem validation_claim_counterexample :
    scrape dataNoCompany (fun _ => envFail) [0] true =
      ScrapeResponse.ok
        [{ url := "https://a.com", business_name := "a.com", error := some "connection refused" }] := by
  rfl

/-- C3 (amended): the only validation is that urls is a non-empty list,
failing with the field-specific 400 message before any processing;
companyName and backlinkUrl are read with empty-string defaults and are
never validated, so a request behaves exactly as if the absent fields were
present and empty. -/
theorem validation_checks_amended (data : RequestData) (env : Nat → TaskEnv)
    (ord : List Nat) (onTime : Bool) :
    (urls_nonempty_list data.urls = false →
        scrape data env ord onTime =
          ScrapeResponse.clientError "Invalid input: urls must be a non-empty array") ∧
    scrape data env ord onTime =
      scrape
        { data with
          companyName := some (data.companyName.getD ""),
          backlinkUrl := some (data.backlinkUrl.getD "") }
        env ord onTime := by
  constructor
  · intro h
    unfold scrape
    rw [h]
    rfl
  · rfl

/-- Witness for C3 (amended): an absent urls field is rejected with the
fixed message. -/
theorem validation_checks_amended_witness :
    scrape { urls := UrlsField.absent, companyName := some "C", backlinkUrl := some "B" }
      (fun _ => envA) [] true =
      ScrapeResponse.clientError "Invalid input: urls must be a non-empty array" :=
  (validation_checks_amended
    { urls := UrlsField.absent, companyName := some "C", backlinkUrl := some "B" }
    (fun _ => envA) [] true).1 rfl

/-! ## Claim C4 -/

/-- C4 counterexample: for the invalid URL "not a url" (no parseable host)
the resulting ExtractionError has an EMPTY business_name — the host-derived
fallback is the empty string, contradicting "business_name ... is a
non-empty string ... when it is an ExtractionError". -/
theorem business_name_claim_counterexample :
    scrape_url FetchOutcome.timeout "not a url" =
      { url := "not a url", business_name := "", error := some "Invalid URL: not a url" } := by
  rfl

/-- C4 (amended): business_name is host-derived but can be empty.  On the
error path it equals the URL's netloc with every "www." occurrence removed,
hence non-empty whenever that string is non-empty (and empty for URLs
without a parseable host); on the success path the name is non-empty
whenever the first candidate, trimmed, contains no '|' or '-' cut point and
is itself non-empty. -/
theorem business_name_amended (f : FetchOutcome) (page : Page) (url : String) :
    ((scrape_url f url).error.isSome = true →
        (scrape_url f url).business_name = pyReplace (netloc url) "www." "") ∧
    ((scrape_url f url).error.isSome = true → pyReplace (netloc url) "www." "" ≠ "" →
        (scrape_url f url).business_name ≠ "") ∧
    (∀ c, firstNameCandidate page = some c → hasCut (trimL c) = false → trimL c ≠ "" →
        extract_business_name page url = trimL c ∧ extract_business_name page url ≠ "") := by
  refine ⟨?_, ?_, ?_⟩
  · unfold scrape_url errorRecord
    split
    · cases f
      · intro herr
        simp at herr
      · intro _
        rfl
      · intro _
        rfl
    · intro _
      rfl
  · unfold scrape_url errorRecord
    split
    · cases f
      · intro herr _
        simp at herr
      · intro _ hne
        exact hne
      · intro _ hne
        exact hne
    · intro _ hne
      exact hne
  · intro c hc hcut hne
    have hd := extract_business_name_decomp page url
    simp only [hc] at hd
    rw [cleanName_of_no_cut _ hcut] at hd
    refine ⟨hd, ?_⟩
    rw [hd]
    exact hne

/-- Witness for C4 (amended): a failed fetch of https://a.com carries the
host-derived name, and the candidate "Acme" passes through unchanged. -/
theorem business_name_amended_witness :
    (scrape_url (FetchOutcome.failure "boom") "https://a.com").business_name =
      pyReplace (netloc "https://a.com") "www." "" ∧
    extract_business_name pageA "https://nonempty.example" = trimL "Acme" :=
  ⟨(business_name_amended (FetchOutcome.failure "boom") pageA "https://a.com").1 (by decide),
   ((business_name_amended FetchOutcome.timeout pageA "https://nonempty.example").2.2 "Acme"
      rfl (by decide) (by decide)).1⟩

/-! ## Claim C5 -/

/-- C5 counterexample: the title candidate "E-shop" has no trailing " | ..."
or " - ..." suffix, so by the claim it would be returned unchanged; the code
cuts at the first '-' — even inside a word — and returns "E". -/
theorem name_extraction_claim_counterexample :
    extract_business_name pageEshop "https://eshop.example" = "E" ∧
    strip_suffix_spec "E-shop" = "E-shop" := by
  constructor
  · rfl
  · rfl

/-- C5 (amended): candidates are tried in the order site-name meta tag,
page-title meta tag, title element; the first non-empty candidate is trimmed
of surrounding whitespace and everything from the first '|' or '-' that has
at least one character after it (plus the whitespace run immediately before
it) is deleted — not merely a space-padded trailing suffix; with no
candidate, the domain fallback (leading www. stripped, first dot label,
hyphens to spaces, title-cased) is returned. -/
theorem name_extraction_amended (page : Page) (url : String) :
    (∀ c, tagName page.og_site_name = some c →
        extract_business_name page url = cleanName (trimL c)) ∧
    (tagName page.og_site_name = none → ∀ c, tagName page.og_title = some c →
        extract_business_name page url = cleanName (trimL c)) ∧
    (tagName page.og_site_name = none → tagName page.og_title = none →
        ∀ c, tagName page.title = some c →
        extract_business_name page url = cleanName (trimL c)) ∧
    (tagName page.og_site_name = none → tagName page.og_title = none →
        tagName page.title = none →
        extract_business_name page url =
          pyTitle (pyReplace ((splitOnC '.'
            (if startsWithL "www." (netloc url) then dropL 4 (netloc url)
             else netloc url)).headD "") "-" " ")) := by
  refine ⟨?_, ?_, ?_, ?_⟩
  · intro c hc
    simp only [extract_business_name, hc]
  · intro h1 c hc
    simp only [extract_business_name, h1, hc]
  · intro h1 h2 c hc
    simp only [extract_business_name, h1, h2, hc]
  · intro h1 h2 h3
    simp only [extract_business_name, h1, h2, h3]
    rfl

/-- Witness for C5 (amended): a site-name candidate with a space-padded pipe
suffix is cut there. -/
theorem name_extraction_amended_witness :
    extract_business_name
      { og_site_name := some { content := some "Acme Corp | Home", str := none },
        og_title := none, title := none, anchors := [], text := "" }
      "https://acme.example" = cleanName (trimL "Acme Corp | Home") :=
  (name_extraction_amended
    { og_site_name := some { content := some "Acme Corp | Home", str := none },
      og_title := none, title := none, anchors := [], text := "" }
    "https://acme.example").1 "Acme Corp | Home" rfl

/-! ## Claim C6 -/

/-- C6 counterexample: str.strip('.,') removes LEADING dots and commas as
well — the raw match ".foo@bar.com" is stripped to the valid foo@bar.com and
kept, whereas the claimed trailing-only stripping would leave the invalid
".foo@bar.com", which validation discards: the two pipelines disagree. -/
theorem email_extraction_claim_counterexample :
    extract_emails ".foo@bar.com" = ["foo@bar.com"] ∧
    extract_emails_spec ".foo@bar.com" = [] := by
  constructor
  · rfl
  · rfl

/-- C6 (amended): matches are stripped of leading AND trailing '.' and ','
characters before validation; every returned address passes the validation
predicate, the returned collection is duplicate-free, and the documented
obfuscated input extracts exactly foo@bar.com. -/
theorem email_extraction_amended :
    extract_emails "foo [at] bar [dot] com" = ["foo@bar.com"] ∧
    (∀ text e, e ∈ extract_emails text → validators_email e = true) ∧
    (∀ text, (extract_emails text).Nodup) ∧
    extract_emails ".foo@bar.com" = ["foo@bar.com"] := by
  refine ⟨by rfl, ?_, ?_, by rfl⟩
  · intro text e he
    simp only [extract_emails] at he
    have hmem := List.mem_dedup.mp he
    exact (List.mem_filter.mp hmem).2
  · intro text
    simp only [extract_emails]
    exact List.nodup_dedup _

/-- Witness for C6 (amended): the address extracted from the obfuscated text
passes validation. -/
theorem email_extraction_amended_witness :
    validators_email "foo@bar.com" = true :=
  email_extraction_amended.2.1 "foo [at] bar [dot] com" "foo@bar.com" (by decide)

/-! ## Claim C7 -/

theorem startsWithL_error_append (msg : String) :
    startsWithL "Error:" ("Error: " ++ msg) = true := rfl

theorem draftSuccessText_shape (t : String) :
    startsWithL "Error:" (draftSuccessText t) = true ∨ draftSuccessText t = trimL t := by
  unfold draftSuccessText
  by_cases ht : t = ""
  · rw [if_pos ht]
    exact Or.inl rfl
  · rw [if_neg ht]
    exact Or.inr rfl

theorem classifyDraftError_starts (excType msg : String) :
    startsWithL "Error:" (classifyDraftError excType msg) = true := by
  unfold classifyDraftError
  split_ifs
  · rfl
  · rfl
  · rfl
  · exact startsWithL_error_append msg
  · rfl

theorem scrape_single_url_fields (e : TaskEnv) (u cn bu : String) :
    (scrape_single_url e u cn bu).error = (scrape_url e.fetch u).error ∧
    (scrape_single_url e u cn bu).emails = (scrape_url e.fetch u).emails ∧
    (scrape_single_url e u cn bu).phones = (scrape_url e.fetch u).phones ∧
    (scrape_single_url e u cn bu).social_links = (scrape_url e.fetch u).social_links := by
  simp only [scrape_single_url]
  split <;> exact ⟨rfl, rfl, rfl, rfl⟩

/-- C7: outreach drafting never escapes as an exception.  Any empty required
input yields the fixed missing-parameters string; every result is either an
"Error:"-prefixed descriptive string or the API text stripped; and on a
successful extraction the per-URL worker returns the extraction record
unchanged except for the added outreach_email, so a drafting failure leaves
emails, phones and social_links intact. -/
theorem drafting_failure_isolated (e : TaskEnv) (d : DraftEnv) (url cn bu bn : String) :
    ((scrape_url e.fetch url).error = none →
        scrape_single_url e url cn bu =
          { scrape_url e.fetch url with outreach_email := (some
              (generate_outreach_email e.draft (scrape_url e.fetch url).business_name cn bu)) }) ∧
    (bn = "" ∨ cn = "" ∨ bu = "" →
        generate_outreach_email d bn cn bu =
          "Error: Missing required parameters for email generation") ∧
    (startsWithL "Error:" (generate_outreach_email d bn cn bu) = true ∨
      ∃ t, d.outcome = DraftOutcome.success t ∧ generate_outreach_email d bn cn bu = trimL t) := by
  refine ⟨?_, ?_, ?_⟩
  · intro h
    simp only [scrape_single_url]
    rw [if_pos h]
  · intro h
    unfold generate_outreach_email
    rw [if_pos h]
  · unfold generate_outreach_email
    split
    · exact Or.inl rfl
    · split
      · exact Or.inl rfl
      · cases hout : d.outcome with
        | success t =>
            rcases draftSuccessText_shape t with hcase | hcase
            · exact Or.inl hcase
            · exact Or.inr ⟨t, rfl, hcase⟩
        | failure excType msg =>
            exact Or.inl (classifyDraftError_starts excType msg)

/-- Witness for C7: a successful fetch keeps its extraction fields and gains
an outreach_email; an empty business name yields the fixed error string. -/
theorem drafting_failure_isolated_witness :
    scrape_single_url envA "https://a.com" "Acme Co" "https://b.example" =
      { scrape_url envA.fetch "https://a.com" with outreach_email := (some
          (generate_outreach_email envA.draft
            (scrape_url envA.fetch "https://a.com").business_name "Acme Co" "https://b.example")) } ∧
    generate_outreach_email draftOk "" "Acme Co" "https://b.example" =
      "Error: Missing required parameters for email generation" :=
  ⟨(drafting_failure_isolated envA draftOk "https://a.com" "Acme Co" "https://b.example" "").1
      (by decide),
   (drafting_failure_isolated envA draftOk "https://a.com" "Acme Co" "https://b.example" "").2.1
      (Or.inl rfl)⟩

/-! ## Claim C8 -/

/-- C8: a record with an error key never carries emails, phones or
social_links; a successful record always carries all three (possibly empty);
and a fetch timeout on a syntactically valid URL produces exactly the record
with the url, the timeout-specific message and the host-derived
business_name — nothing else. -/
theorem extraction_error_shape (e : TaskEnv) (url cn bu : String) :
    ((scrape_single_url e url cn bu).error.isSome = true →
        (scrape_single_url e url cn bu).emails = none ∧
        (scrape_single_url e url cn bu).phones = none ∧
        (scrape_single_url e url cn bu).social_links = none) ∧
    ((scrape_single_url e url cn bu).error = none →
        (scrape_single_url e url cn bu).emails.isSome = true ∧
        (scrape_single_url e url cn bu).phones.isSome = true ∧
        (scrape_single_url e url cn bu).social_links.isSome = true) ∧
    (e.fetch = FetchOutcome.timeout → validators_url url = true →
        scrape_single_url e url cn bu =
          { url := url, business_name := pyReplace (netloc url) "www." "",
            error := some "Request timed out" }) := by
  refine ⟨?_, ?_, ?_⟩
  · intro herr
    obtain ⟨h1, h2, h3, h4⟩ := scrape_single_url_fields e url cn bu
    rw [h1] at herr
    rcases scrape_url_shape e.fetch url with ⟨hn, _, _, _, _⟩ | ⟨_, he, hp, hs, _⟩
    · rw [hn] at herr
      simp at herr
    · exact ⟨h2.trans he, h3.trans hp, h4.trans hs⟩
  · intro hnone
    obtain ⟨h1, h2, h3, h4⟩ := scrape_single_url_fields e url cn bu
    rw [h1] at hnone
    rcases scrape_url_shape e.fetch url with ⟨_, he, hp, hs, _⟩ | ⟨hsome, _, _, _, _⟩
    · refine ⟨?_, ?_, ?_⟩
      · rw [h2]
        exact he
      · rw [h3]
        exact hp
      · rw [h4]
        exact hs
    · rw [hnone] at hsome
      simp at hsome
  · intro hf hv
    have hrec : scrape_url e.fetch url = errorRecord url "Request timed out" := by
      rw [hf]
      unfold scrape_url
      rw [if_pos hv]
    simp only [scrape_single_url, hrec]
    rw [if_neg (by simp [errorRecord])]
    rfl

/-- Witness for C8 at a concrete timeout on https://a.com. -/
theorem extraction_error_shape_witness :
    scrape_single_url { fetch := FetchOutcome.timeout, draft := draftOk } "https://a.com" "C" "B" =
      { url := "https://a.com", business_name := pyReplace (netloc "https://a.com") "www." "",
        error := some "Request timed out" } :=
  (extraction_error_shape { fetch := FetchOutcome.timeout, draft := draftOk }
    "https://a.com" "C" "B").2.2 rfl (by decide)

/-! ## Claim C9 -/

/-- C9 counterexample: a page whose only anchor has href "/pagename" yields
NO facebook entry at all — the regex is matched against the href attribute
itself, which does not contain facebook.com — even though urljoin would
resolve "/pagename" against the base exactly as the claim asserts. -/
theorem social_links_claim_counterexample :
    extract_social_links pageRelAnchor "https://example.com/about" = [] ∧
    urljoin "https://example.com/about" "/pagename" = "https://example.com/pagename" := by
  constructor
  · rfl
  · rfl

/-- C9 (amended): for each of the four fixed platforms — facebook, twitter,
linkedin, instagram — the extracted entry, when present, is the first anchor
whose href attribute itself matches that platform's domain pattern
case-insensitively, resolved against the final URL with urljoin; anchors
whose href lacks the platform domain are never selected; at most one entry
per platform.  The concrete page shows the case-insensitive first-match
behaviour. -/
theorem social_links_amended (page : Page) (base : String) :
    (lookupKey "facebook" (extract_social_links page base) =
        (page.anchors.find? (hrefMatches "facebook")).map (fun h => urljoin base h)) ∧
    (lookupKey "twitter" (extract_social_links page base) =
        (page.anchors.find? (hrefMatches "twitter")).map (fun h => urljoin base h)) ∧
    (lookupKey "linkedin" (extract_social_links page base) =
        (page.anchors.find? (hrefMatches "linkedin")).map (fun h => urljoin base h)) ∧
    (lookupKey "instagram" (extract_social_links page base) =
        (page.anchors.find? (hrefMatches "instagram")).map (fun h => urljoin base h)) ∧
    (∀ plat, ((extract_social_links page base).map Prod.fst).count plat ≤ 1) ∧
    extract_social_links
      { og_site_name := none, og_title := none, title := none,
        anchors := ["https://FACEBOOK.com/a", "https://facebook.com/b"], text := "" }
      "https://example.com/" = [("facebook", "https://FACEBOOK.com/a")] := by
  have hmain : (lookupKey "facebook" (extract_social_links page base) =
        (page.anchors.find? (hrefMatches "facebook")).map (fun h => urljoin base h)) ∧
      (lookupKey "twitter" (extract_social_links page base) =
        (page.anchors.find? (hrefMatches "twitter")).map (fun h => urljoin base h)) ∧
      (lookupKey "linkedin" (extract_social_links page base) =
        (page.anchors.find? (hrefMatches "linkedin")).map (fun h => urljoin base h)) ∧
      (lookupKey "instagram" (extract_social_links page base) =
        (page.anchors.find? (hrefMatches "instagram")).map (fun h => urljoin base h)) ∧
      (((extract_social_links page base).map Prod.fst)).Nodup := by
    cases hfb : page.anchors.find? (hrefMatches "facebook") <;>
    cases htw : page.anchors.find? (hrefMatches "twitter") <;>
    cases hli : page.anchors.find? (hrefMatches "linkedin") <;>
    cases hin : page.anchors.find? (hrefMatches "instagram") <;>
      refine ⟨?_, ?_, ?_, ?_, ?_⟩ <;>
        simp [extract_social_links, socialPlatforms, hfb, htw, hli, hin, lookupKey]
  obtain ⟨h1, h2, h3, h4, hnd⟩ := hmain
  exact ⟨h1, h2, h3, h4, fun plat => List.nodup_iff_count_le_one.mp hnd plat, by rfl⟩

/-! ## Claim C10 -/

/-- C10: in any 200 batch response, a record carries an outreach_email
exactly when it carries no error key — drafting is skipped entirely for URLs
whose extraction failed. -/
theorem outreach_presence_iff_success (data : RequestData) (env : Nat → TaskEnv)
    (ord : List Nat) (rs : List UrlRecord)
    (h : scrape data env ord true = ScrapeResponse.ok rs) :
    ∀ r ∈ rs, (r.error = none → r.outreach_email.isSome = true) ∧
      (r.error.isSome = true → r.outreach_email = none) := by
  intro r hr
  unfold scrape at h
  by_cases hok : urls_nonempty_list data.urls
  · rw [if_pos hok] at h
    simp only [if_pos] at h
    rw [ScrapeResponse.ok.injEq] at h
    subst h
    obtain ⟨i, _, rfl⟩ := List.mem_map.mp hr
    exact scrape_single_url_outreach (env i) _ _ _
  · rw [if_neg hok] at h
    simp at h

/-- Witness for C10: the single successful record of a concrete batch
carries an outreach_email. -/
theorem outreach_presence_iff_success_witness :
    (scrape_single_url envA "https://example.com" "Acme"
      "https://acme.example/page").outreach_email.isSome = true :=
  (outreach_presence_iff_success dataSingle (fun _ => envA) [0]
    [scrape_single_url envA "https://example.com" "Acme" "https://acme.example/page"] rfl
    (scrape_single_url envA "https://example.com" "Acme" "https://acme.example/page")
    (List.mem_singleton.mpr rfl)).1 (by decide)
